import Mathlib

/-!
Verification of the runtime core of the snap-plugin-lib-py plugin SDK
(`src/snap_plugin/v1/plugin.py`), as a shallow embedding in Lean.

The embedding covers: the JSON value model used for configuration and for
the handshake preamble, the enumerations (`PluginType`, `RPCType`,
`RoutingStrategy`, `PluginResponseState`, `PluginMode`), the `Meta`
identity record, config resolution (`_parse_args`), log-level resolution
(`_set_log_level`), the watchdog loop (`_monitor`) as a step function on
an explicit state, the diagnostic pipeline (`_print_diagnostic` and
`_parse_policy_namespaces`) as a trace-producing function, and the
standalone HTTP handler (`_make_standalone_handler`).

Python floats of `time.time()` are modelled as `Nat` seconds; machine
integers of the source are unbounded in Python, so `Int`/`Nat` model them
exactly.  Fallible Python code (uncaught `IndexError`, `TypeError`)
is modelled with `Option`.  The external `json.loads` collaborator is a
parameter `String → Option Cfg` (`none` models `ValueError` on malformed
input, which the source catches).
-/

set_option autoImplicit false

namespace SnapPlugin

/-- JSON-typed values, as produced by `json.loads` and consumed by
`json.dumps` in the source.  Arrays are not needed by any code path
modelled here. -/
inductive JVal where
  | null : JVal
  | bool (b : Bool) : JVal
  | int (n : Int) : JVal
  | str (s : String) : JVal
  | obj (fields : List (String × JVal)) : JVal

/-- A Python `dict` with string keys, in insertion order. -/
abbrev Cfg := List (String × JVal)

/-- Python `d[k]` / `k in d` lookup: first binding wins (our configs never
hold duplicate keys; later bindings are appended only for absent keys). -/
def lookupKey : List (String × JVal) → String → Option JVal
  | [], _ => none
  | (k, v) :: rest, key => if k = key then some v else lookupKey rest key

/-- Python `key in dict` membership test. -/
def hasKey (cfg : List (String × JVal)) (key : String) : Bool :=
  (lookupKey cfg key).isSome

/-- `class PluginType(Enum)` of the source. -/
inductive PluginType where
  | collector : PluginType
  | processor : PluginType
  | publisher : PluginType
  | stream_collector : PluginType
  deriving DecidableEq

/-- The declared integer code of each `PluginType` member. -/
def PluginType.value : PluginType → Int
  | .collector => 0
  | .processor => 1
  | .publisher => 2
  | .stream_collector => 3

/-- `class RPCType(Enum)` of the source. -/
inductive RPCType where
  | native : RPCType
  | json : RPCType
  | grpc : RPCType
  | grpc_stream : RPCType
  deriving DecidableEq

/-- The declared integer code of each `RPCType` member. -/
def RPCType.value : RPCType → Int
  | .native => 0
  | .json => 1
  | .grpc => 2
  | .grpc_stream => 3

/-- `RPCType.__str__`: the `switch` mapping of the source. -/
def RPCType.str : RPCType → String
  | .native => "Native"
  | .json => "JSON"
  | .grpc => "gRPC"
  | .grpc_stream => "gRPCStream"

/-- `class RoutingStrategy(Enum)` of the source. -/
inductive RoutingStrategy where
  | lru : RoutingStrategy
  | sticky : RoutingStrategy
  | config : RoutingStrategy
  deriving DecidableEq

/-- The declared integer code of each `RoutingStrategy` member. -/
def RoutingStrategy.value : RoutingStrategy → Int
  | .lru => 0
  | .sticky => 1
  | .config => 2

/-- `class PluginResponseState(Enum)` of the source. -/
inductive PluginResponseState where
  | plugin_success : PluginResponseState
  | plugin_failure : PluginResponseState
  deriving DecidableEq

/-- The declared integer code of each `PluginResponseState` member. -/
def PluginResponseState.value : PluginResponseState → Int
  | .plugin_success => 0
  | .plugin_failure => 1

/-- `class PluginMode(Enum)` of the source. -/
inductive PluginMode where
  | normal : PluginMode
  | diagnostics : PluginMode
  | standalone : PluginMode
  deriving DecidableEq

/-- `class Meta` of the source: the plugin identity record.  `cache_ttl`
defaults to `None` in the source, hence `Option`. -/
structure Meta where
  type : PluginType
  name : String
  version : Int
  concurrency_count : Int
  routing_strategy : RoutingStrategy
  exclusive : Bool
  cache_ttl : Option Int
  rpc_type : RPCType
  rpc_version : Int
  unsecure : Bool

/-! ## Watchdog (`_monitor`)

The loop of `_monitor` is embedded as a step function on an explicit
state.  Each loop iteration (one wake-up after `time.sleep`) is an event
carrying the current time, the value `last_ping()` would return, and the
value `is_shutting_down()` would return at that moment.  Times are `Nat`
seconds.  `stopped = true` models that the Python function has returned;
`stopCalls` counts invocations of the `stop_plugin` callback. -/

/-- The local state of `_monitor`: `_timeout_count`, `_last_check`,
whether the function has returned, and how many times `stop_plugin`
was invoked. -/
structure MonitorState where
  timeoutCount : Nat
  lastCheck : Nat
  stopped : Bool
  stopCalls : Nat
  deriving DecidableEq

/-- One wake-up of the `_monitor` loop: the clock value, the last-ping
timestamp it observes, and the shutdown flag it observes. -/
structure MonitorEvent where
  now : Nat
  lastPing : Nat
  shuttingDown : Bool
  deriving DecidableEq

/-- Initial state of `_monitor`: `_timeout_count = 0`,
`_last_check = time.time()` at entry, not yet returned. -/
def monitorInit (startTime : Nat) : MonitorState :=
  { timeoutCount := 0, lastCheck := startTime, stopped := false, stopCalls := 0 }

/-- One iteration of the `while True` loop of `_monitor`.  Once the
function has returned (`stopped`), further events change nothing. -/
def monitorStep (timeout : Nat) (s : MonitorState) (e : MonitorEvent) : MonitorState :=
  if s.stopped then s
  else if e.shuttingDown then
    -- `if is_shutting_down(): return`
    { s with stopped := true }
  else if timeout < e.now - s.lastCheck ∧ timeout < e.now - e.lastPing then
    -- missed a ping during the last timeout window
    if s.timeoutCount + 1 ≥ 3 then
      { timeoutCount := s.timeoutCount + 1, lastCheck := e.now,
        stopped := true, stopCalls := s.stopCalls + 1 }
    else
      { timeoutCount := s.timeoutCount + 1, lastCheck := e.now,
        stopped := false, stopCalls := s.stopCalls }
  else if e.now - e.lastPing ≤ timeout then
    { s with timeoutCount := 0 }
  else s

/-- Run the `_monitor` loop over a sequence of wake-up events. -/
def monitorRun (timeout : Nat) (s : MonitorState) : List MonitorEvent → MonitorState
  | [] => s
  | e :: es => monitorRun timeout (monitorStep timeout s e) es

/-- `_sleep_interval` resolution of `_monitor`: 1 second, lowered to the
timeout when the timeout is below 1 second. -/
def monitorSleepInterval (timeout : Nat) : Nat :=
  if timeout < 1 then timeout else 1

/-! ## Config resolution (`_parse_args`) and log level (`_set_log_level`)

`json.loads` is an external collaborator; it is passed in as a function
`String → Option Cfg`, where `none` models the `ValueError` raised on
malformed input (which `_parse_args` catches). -/

/-- Outcome of the config-resolution part of `_parse_args`: the effective
config, the selected operating mode, and whether the invalid-config
warning was logged. -/
structure ParseResult where
  config : List (String × JVal)
  mode : PluginMode
  warnedInvalidConfig : Bool

/-- The config-resolution core of `_parse_args` (lines 413-432):
`self._config["LogLevel"] = int(self._args.log_level)` on the initially
empty dict, mode selection from `framework_config` / `stand_alone`, then
`self._config = json.loads(self._args.config)` (whole-dict replacement)
when a config source exists, falling back to `{}` with a warning when
parsing fails. -/
def parseArgsConfig (jsonLoads : String → Option Cfg) (logLevelArg : Int)
    (frameworkConfig : Option String) (standAlone : Bool)
    (configArg : Option String) : ParseResult :=
  let config0 : List (String × JVal) := [("LogLevel", JVal.int logLevelArg)]
  -- mode selection; `self._args.config` is overwritten by the framework config
  let mode : PluginMode :=
    match frameworkConfig with
    | some _ => PluginMode.normal
    | none => if standAlone then PluginMode.standalone else PluginMode.diagnostics
  let configSource : Option String :=
    match frameworkConfig with
    | some fc => some fc
    | none => configArg
  match configSource with
  | none => { config := config0, mode := mode, warnedInvalidConfig := false }
  | some s =>
    match jsonLoads s with
    | some cfg => { config := cfg, mode := mode, warnedInvalidConfig := false }
    | none => { config := [], mode := mode, warnedInvalidConfig := true }

/-- `_set_log_level`.  Input: the effective config and the current level
of the logger.  Output: the level afterwards and whether the out-of-range
error was logged.  `none` models the `TypeError` Python raises when
`self._config["LogLevel"]` is present but not comparable with integers. -/
def setLogLevel (config : Cfg) (currentLevel : Int) : Option (Int × Bool) :=
  match lookupKey config "LogLevel" with
  | some (JVal.int v) =>
    if 1 ≤ v ∧ v ≤ 5 then
      -- multiply by 10 to convert to the python logging module scale
      some (v * 10, false)
    else
      -- error logged, level left unchanged
      some (currentLevel, true)
  | some _ => none
  | none => some (30, false)

/-! ## Diagnostic pipeline (`_print_diagnostic`, `_parse_policy_namespaces`)

The pipeline is embedded as a trace-producing function: each phase of
`_print_diagnostic` that actually executes contributes an event.  The
plugin author's callbacks `update_catalog` and `collect` are external
collaborators and are passed in as functions. -/

/-- One config-policy rule, with the fields `_parse_policy_namespaces`
reads (`required`, `has_default`/`default`, `has_min`/`minimum`,
`has_max`/`maximum`). -/
structure Rule where
  required : Bool
  has_default : Bool
  default : JVal
  has_min : Bool
  minimum : Int
  has_max : Bool
  maximum : Int

/-- One policy node: `policy[namespace]` in the source, holding the
namespace path (`.key`) and the per-key rules (`.rules`). -/
structure PolicyNode where
  key : List String
  rules : List (String × Rule)

/-- One row of the printed config-policy table
(`[namespace, key, key_type, required, default, mini, maxi]`);
absent default/min/max render as the empty string in the source,
modelled as `none`. -/
structure PolicyEntry where
  ns : String
  key : String
  keyType : String
  required : Bool
  default : Option JVal
  minimum : Option Int
  maximum : Option Int

/-- The inner `for key in policy[namespace].rules` loop of
`_parse_policy_namespaces`: produces the table rows, the required keys
absent from the effective config, and the `(namespace path, key,
default)` triples for keys declaring a default, in iteration order. -/
def parsePolicyRules (config : Cfg) (nsName : String) (nsPath : List String)
    (keyType : String) :
    List (String × Rule) →
      List PolicyEntry × List String × List (List String × String × JVal)
  | [] => ([], [], [])
  | (key, rls) :: rest =>
    let tail := parsePolicyRules config nsName nsPath keyType rest
    let entry : PolicyEntry :=
      { ns := nsName, key := key, keyType := keyType, required := rls.required,
        default := if rls.has_default then some rls.default else none,
        minimum := if rls.has_min then some rls.minimum else none,
        maximum := if rls.has_max then some rls.maximum else none }
    let dfl := if rls.has_default then [(nsPath, key, rls.default)] else []
    let miss := if rls.required ∧ ¬ hasKey config key then [key] else []
    (entry :: tail.1, miss ++ tail.2.1, dfl ++ tail.2.2)

/-- `_parse_policy_namespaces`: the outer `for namespace in policy.keys()`
loop, concatenating the per-namespace results. -/
def parsePolicyNamespaces (config : Cfg) (keyType : String) :
    List (String × PolicyNode) →
      List PolicyEntry × List String × List (List String × String × JVal)
  | [] => ([], [], [])
  | (nsName, node) :: rest =>
    let here := parsePolicyRules config nsName node.key keyType node.rules
    let tail := parsePolicyNamespaces config keyType rest
    (here.1 ++ tail.1, here.2.1 ++ tail.2.1, here.2.2 ++ tail.2.2)

/-- The `for kt, policy in cpolicy.policies` loop of `_print_diagnostic`,
extending `policy_table`, `config_missing` and `defaults` across all
declared policies. -/
def parseAllPolicies (config : Cfg) :
    List (String × List (String × PolicyNode)) →
      List PolicyEntry × List String × List (List String × String × JVal)
  | [] => ([], [], [])
  | (keyType, policy) :: rest =>
    let here := parsePolicyNamespaces config keyType policy
    let tail := parseAllPolicies config rest
    (here.1 ++ tail.1, here.2.1 ++ tail.2.1, here.2.2 ++ tail.2.2)

/-- The inner matching loop of the default-merge phase:
`for i in range(len(ns)): if ns[i] != metric.namespace[i].value: ...`.
`none` models the uncaught `IndexError` raised when the metric's
namespace runs out before the policy path does (and no earlier segment
mismatched). -/
def matchLoop : List String → List String → Option Bool
  | [], _ => some true
  | _ :: _, [] => none
  | n :: ns, m :: ms => if n ≠ m then some false else matchLoop ns ms

/-- One iteration of `for (ns, default) in defaults`: run the matching
loop, then `if match and default[0] not in metric_config:
metric_config[default[0]] = default[1]` (dict insertion appends the new
binding). -/
def applyOneDefault (cfg : Cfg) (d : List String × String × JVal)
    (mns : List String) : Option Cfg :=
  match matchLoop d.1 mns with
  | none => none
  | some mtch =>
    if mtch ∧ ¬ hasKey cfg d.2.1 then some (cfg ++ [(d.2.1, d.2.2)])
    else some cfg

/-- The default-merge for one metric: start from a copy of the effective
config (`metric_config = self._config.copy()`) and apply every recorded
default triple in order. -/
def mergeMetricConfig (config : Cfg)
    (defaults : List (List String × String × JVal)) (mns : List String) :
    Option Cfg :=
  defaults.foldlM (fun cfg d => applyOneDefault cfg d mns) config

/-- A catalog metric, with the two fields the diagnostic pipeline reads
and writes: the namespace (its segments' `.value` strings) and the
per-metric config. -/
structure Metric where
  ns : List String
  config : Cfg

/-- The `for metric in metrics` merge loop of `_print_diagnostic`:
assigns each metric the merged config. -/
def mergeAllMetrics (config : Cfg)
    (defaults : List (List String × String × JVal)) :
    List Metric → Option (List Metric)
  | [] => some []
  | m :: ms =>
    match mergeMetricConfig config defaults m.ns with
    | none => none
    | some c =>
      match mergeAllMetrics config defaults ms with
      | none => none
      | some rest => some ({ ns := m.ns, config := c } :: rest)

/-- The observable phases of a diagnostic run, in execution order. -/
inductive DiagEvent where
  | runtimeDetails : DiagEvent
  | configPolicyPrinted : DiagEvent
  | missingReported (key : String) : DiagEvent
  | metricCatalogPrinted : DiagEvent
  | collectPrinted : DiagEvent
  deriving DecidableEq

/-- `_print_diagnostic`: runtime details, config-policy table, the
missing-required-key report with early return, catalog update,
default-merge, and the collection pass.  `none` models an uncaught
exception in the merge phase; the early return on missing required keys
is a normal return (`some`). -/
def printDiagnostic (config : Cfg)
    (policies : List (String × List (String × PolicyNode)))
    (updateCatalog : Cfg → List Metric)
    (collect : List Metric → List Metric) : Option (List DiagEvent) :=
  let parsed := parseAllPolicies config policies
  let missing := parsed.2.1
  let defaults := parsed.2.2
  let header := [DiagEvent.runtimeDetails, DiagEvent.configPolicyPrinted]
  let reported := missing.map DiagEvent.missingReported
  if missing.length ≠ 0 then
    -- return if there are any missing required config entries
    some (header ++ reported)
  else
    let metrics := updateCatalog config
    match mergeAllMetrics config defaults metrics with
    | none => none
    | some merged =>
      let _ := collect merged
      some (header ++ reported ++ [DiagEvent.metricCatalogPrinted, DiagEvent.collectPrinted])

/-! ## Handshake preamble (`_generate_preamble_and_serve`, `_EnumEncoder`)

The dict passed to `json.dumps` is embedded as a `JVal`; `_EnumEncoder`
turns every `Enum` member into its `.value`, hence every enumeration
field below is `JVal.int` of the declared code.  `json.dumps` itself
(default options: `ensure_ascii=True`, separators `", "` and `": "`) is
embedded as `jsonDumps`, and `str.encode("utf-8")` as `utf8Encode`. -/

/-- Decimal digit character. -/
def digitChar (d : Nat) : Char :=
  if d = 0 then '0' else if d = 1 then '1' else if d = 2 then '2'
  else if d = 3 then '3' else if d = 4 then '4' else if d = 5 then '5'
  else if d = 6 then '6' else if d = 7 then '7' else if d = 8 then '8'
  else '9'

/-- Decimal digits of a natural number, most significant first
(Python `str` on a non-negative `int`). -/
def natReprCore (n : Nat) : List Char :=
  if _h : n < 10 then [digitChar n]
  else natReprCore (n / 10) ++ [digitChar (n % 10)]
termination_by n
decreasing_by exact Nat.div_lt_self (by omega) (by omega)

/-- Python `str` on a non-negative `int`. -/
def natRepr (n : Nat) : String :=
  String.mk (natReprCore n)

/-- Python `str` on an `int` (JSON integer rendering). -/
def intRepr (i : Int) : String :=
  if i < 0 then "-" ++ natRepr i.natAbs else natRepr i.natAbs

/-- Hexadecimal digit character (lowercase, as in Python's
json escapes). -/
def hexDigitChar (d : Nat) : Char :=
  if d = 10 then 'a' else if d = 11 then 'b' else if d = 12 then 'c'
  else if d = 13 then 'd' else if d = 14 then 'e' else if d = 15 then 'f'
  else digitChar d

/-- Four fixed-width hexadecimal digits, as in a `\uXXXX` escape. -/
def hex4 (n : Nat) : String :=
  String.mk [hexDigitChar (n / 4096 % 16), hexDigitChar (n / 256 % 16),
             hexDigitChar (n / 16 % 16), hexDigitChar (n % 16)]

/-- Escaping of one character of a JSON string by `json.dumps` with
`ensure_ascii=True`: printable ASCII other than quote and backslash is
kept, the usual short escapes apply, everything else becomes `\uXXXX`
(a surrogate pair beyond the basic plane). -/
def escapeChar (c : Char) : String :=
  if c = '"' then "\\\""
  else if c = '\\' then "\\\\"
  else if c = '\n' then "\\n"
  else if c = '\r' then "\\r"
  else if c = '\t' then "\\t"
  else if c.toNat = 8 then "\\b"
  else if c.toNat = 12 then "\\f"
  else if 0x20 ≤ c.toNat ∧ c.toNat ≤ 0x7e then String.singleton c
  else if c.toNat < 0x10000 then "\\u" ++ hex4 c.toNat
  else
    "\\u" ++ hex4 (0xd800 + (c.toNat - 0x10000) / 0x400) ++
    "\\u" ++ hex4 (0xdc00 + (c.toNat - 0x10000) % 0x400)

/-- Concatenated escapes of a character sequence. -/
def escapeChars : List Char → String
  | [] => ""
  | c :: cs => escapeChar c ++ escapeChars cs

/-- JSON escaping of a whole string. -/
def escapeString (s : String) : String :=
  escapeChars s.data

mutual

/-- `json.dumps` with default options on our value model: `null`,
booleans, decimal integers, escaped-and-quoted strings, and objects with
`", "` / `": "` separators in insertion order. -/
def jsonDumps : JVal → String
  | JVal.null => "null"
  | JVal.bool true => "true"
  | JVal.bool false => "false"
  | JVal.int n => intRepr n
  | JVal.str s => "\"" ++ escapeString s ++ "\""
  | JVal.obj fields => "\x7b" ++ jsonDumpsFields fields ++ "\x7d"

/-- The comma-separated field list of a serialized JSON object. -/
def jsonDumpsFields : List (String × JVal) → String
  | [] => ""
  | [(k, v)] => "\"" ++ escapeString k ++ "\": " ++ jsonDumps v
  | (k, v) :: f :: fs =>
    "\"" ++ escapeString k ++ "\": " ++ jsonDumps v ++ ", " ++
    jsonDumpsFields (f :: fs)

end

/-- The JSON document built by `_generate_preamble_and_serve` (before
serialization), with every `Enum` field already replaced by its `.value`
as `_EnumEncoder` does. -/
def preambleJson (meta : Meta) (port : Nat) : JVal :=
  JVal.obj [
    ("Meta", JVal.obj [
      ("Name", JVal.str meta.name),
      ("Version", JVal.int meta.version),
      ("Type", JVal.int meta.type.value),
      ("RPCType", JVal.int meta.rpc_type.value),
      ("RPCVersion", JVal.int meta.rpc_version),
      ("ConcurrencyCount", JVal.int meta.concurrency_count),
      ("Exclusive", JVal.bool meta.exclusive),
      ("Unsecure", JVal.bool meta.unsecure),
      ("CacheTTL", match meta.cache_ttl with
        | none => JVal.null
        | some t => JVal.int t),
      ("RoutingStrategy", JVal.int meta.routing_strategy.value)]),
    ("ListenAddress", JVal.str ("127.0.0.1:" ++ natRepr port)),
    ("Token", JVal.null),
    ("PublicKey", JVal.null),
    ("Type", JVal.int meta.type.value),
    ("ErrorMessage", JVal.null),
    ("State", JVal.int PluginResponseState.plugin_success.value)]

/-- Field access on a serialized-object model (`none` off an object or
for an absent key). -/
def jLookup : JVal → String → Option JVal
  | JVal.obj fields, key => lookupKey fields key
  | _, _ => none

/-- Decoding an identity field: the entry under the given key of the
`"Meta"` object of the preamble document. -/
def preambleMetaField (meta : Meta) (port : Nat) (field : String) : Option JVal :=
  match jLookup (preambleJson meta port) "Meta" with
  | some m => jLookup m field
  | none => none

/-- The preamble string returned by `_generate_preamble_and_serve`:
the serialized document plus the trailing newline. -/
def preambleString (meta : Meta) (port : Nat) : String :=
  jsonDumps (preambleJson meta port) ++ "\n"

/-! ## Standalone HTTP handler (`_make_standalone_handler`) -/

/-- UTF-8 encoding of one character (Python `str.encode("utf-8")`),
as a byte list. -/
def utf8EncodeChar (c : Char) : List Nat :=
  let n := c.toNat
  if n < 0x80 then [n]
  else if n < 0x800 then [0xc0 + n / 0x40, 0x80 + n % 0x40]
  else if n < 0x10000 then
    [0xe0 + n / 0x1000, 0x80 + n / 0x40 % 0x40, 0x80 + n % 0x40]
  else
    [0xf0 + n / 0x40000, 0x80 + n / 0x1000 % 0x40,
     0x80 + n / 0x40 % 0x40, 0x80 + n % 0x40]

/-- UTF-8 encoding of a string as a byte list. -/
def utf8Encode (s : String) : List Nat :=
  s.data.flatMap utf8EncodeChar

/-- The response assembled by `do_GET` of the standalone handler. -/
structure HttpResponse where
  status : Nat
  contentType : String
  contentLength : Nat
  body : List Nat

/-- `do_GET` of `_StandaloneHandler`: status 200, the two headers
(`Content-length` is `len(preamble)`, the character count of the
string), and the UTF-8-encoded preamble as body.  The request path is
never read. -/
def standaloneGET (preamble : String) (_path : String) : HttpResponse :=
  { status := 200,
    contentType := "application/json; charset=utf-8",
    contentLength := preamble.length,
    body := utf8Encode preamble }

/-- `log_message` of `_StandaloneHandler`: returns immediately, so a
request produces no log lines. -/
def standaloneLogMessage (_fmt : String) (_args : List String) : List String :=
  []

/-- A character within the 7-bit ASCII range. -/
def isAsciiChar (c : Char) : Bool :=
  c.toNat < 128

/-- A string of 7-bit ASCII characters only (for such strings, character
count and UTF-8 byte count agree). -/
def isAsciiStr (s : String) : Bool :=
  s.data.all isAsciiChar

/-! ## Start-up dispatch (`start_plugin`) -/

/-- The four branches of the `if/elif/else` chain in `start_plugin`. -/
inductive StartAction where
  | serveNormal : StartAction
  | serveStandalone : StartAction
  | runDiagnostics : StartAction
  | printUnsupportedMessage : StartAction
  deriving DecidableEq

/-- The branch `start_plugin` takes, given the resolved mode and the
declared plugin type. -/
def startPluginDispatch (mode : PluginMode) (ptype : PluginType) : StartAction :=
  if mode = PluginMode.normal then StartAction.serveNormal
  else if mode = PluginMode.standalone then StartAction.serveStandalone
  else if mode = PluginMode.diagnostics ∧ ptype = PluginType.collector then
    StartAction.runDiagnostics
  else StartAction.printUnsupportedMessage

/-! ## Concrete instances used to evaluate the model on explicit inputs -/

/-- A concrete plugin identity (the example collector of the repository:
`Meta(PluginType.collector, "rand", 1)` with the constructor defaults). -/
def sampleMeta : Meta :=
  { type := PluginType.collector, name := "rand", version := 1,
    concurrency_count := 5, routing_strategy := RoutingStrategy.lru,
    exclusive := false, cache_ttl := none, rpc_type := RPCType.grpc,
    rpc_version := 1, unsecure := true }

/-- The behaviour of the external `json.loads` on one concrete document:
the well-formed object `{"a": 1}` parses to a single-entry dict, and
every other input of interest here fails to parse. -/
def jsonLoadsSample : String → Option Cfg :=
  fun s => if s = "\x7b\"a\": 1\x7d" then some [("a", JVal.int 1)] else none

/-- A concrete config-policy rule: `threshold` required, no default and
no bounds. -/
def sampleRule : Rule :=
  { required := true, has_default := false, default := JVal.null,
    has_min := false, minimum := 0, has_max := false, maximum := 0 }

/-- A concrete config policy: the key `threshold` required under the
namespace `["cpu"]`, declared under the `string` key-type. -/
def samplePolicies : List (String × List (String × PolicyNode)) :=
  [("string", [("cpu", { key := ["cpu"], rules := [("threshold", sampleRule)] })])]

/-- A concrete `update_catalog` collaborator returning an empty catalog. -/
def sampleCatalog : Cfg → List Metric :=
  fun _ => []

/-- A concrete `collect` collaborator returning its input unchanged. -/
def sampleCollect : List Metric → List Metric :=
  fun ms => ms

/-! ## Theorems -/

/-- Claim C2: in the watchdog loop, whenever the miss counter is 1 or 2,
a single check iteration that observes an elapsed time since the last
ping of at most the timeout (and no shutdown request) resets the miss
counter to 0. -/
theorem monitor_ping_within_window_resets_miss_counter
    (timeout : Nat) (s : MonitorState) (e : MonitorEvent)
    (hrun : s.stopped = false)
    (_hmiss : s.timeoutCount = 1 ∨ s.timeoutCount = 2)
    (hsd : e.shuttingDown = false)
    (hping : e.now - e.lastPing ≤ timeout) :
    (monitorStep timeout s e).timeoutCount = 0 := by
  have hnot : ¬ (timeout < e.now - s.lastCheck ∧ timeout < e.now - e.lastPing) := by
    rintro ⟨-, h⟩; omega
  simp [monitorStep, hrun, hsd, hnot, hping]

/-- Witness for claim C2 at a concrete state: miss counter 2, a ping
3 seconds ago against a 5-second timeout. -/
theorem monitor_ping_within_window_resets_miss_counter_witness :
    (monitorStep 5 { timeoutCount := 2, lastCheck := 10, stopped := false, stopCalls := 0 }
      { now := 20, lastPing := 17, shuttingDown := false }).timeoutCount = 0 :=
  monitor_ping_within_window_resets_miss_counter 5 _ _ rfl (Or.inr rfl) rfl (by decide)

/-- Claim C10: in diagnostic mode, `start_plugin` runs the diagnostic
pipeline exactly when the declared plugin type is collector; for every
other plugin type it takes the branch that prints the
diagnostics-unsupported message and runs no diagnostic phase. -/
theorem start_plugin_diagnostics_only_for_collector
    (mode : PluginMode) (ptype : PluginType)
    (h : mode = PluginMode.diagnostics) :
    (startPluginDispatch mode ptype = StartAction.runDiagnostics ↔
      ptype = PluginType.collector) ∧
    (ptype ≠ PluginType.collector →
      startPluginDispatch mode ptype = StartAction.printUnsupportedMessage) := by
  subst h
  cases ptype <;> simp [startPluginDispatch]

/-- Witness for claim C10: a processor plugin in diagnostic mode gets the
unsupported-message branch; a collector gets the diagnostic pipeline. -/
theorem start_plugin_diagnostics_only_for_collector_witness :
    startPluginDispatch PluginMode.diagnostics PluginType.processor =
      StartAction.printUnsupportedMessage ∧
    startPluginDispatch PluginMode.diagnostics PluginType.collector =
      StartAction.runDiagnostics :=
  ⟨(start_plugin_diagnostics_only_for_collector PluginMode.diagnostics
      PluginType.processor rfl).2 (by decide),
   (start_plugin_diagnostics_only_for_collector PluginMode.diagnostics
      PluginType.collector rfl).1.mpr rfl⟩

/-- Claim C7: log-level resolution.  A `LogLevel` value in [1,5] sets the
level to ten times the value; a present value outside [1,5] logs an error
and leaves the level unchanged; an absent `LogLevel` sets the level
to 30 (warn). -/
theorem set_log_level_resolution (config : Cfg) (currentLevel : Int) :
    (∀ v : Int, lookupKey config "LogLevel" = some (JVal.int v) →
      1 ≤ v → v ≤ 5 → setLogLevel config currentLevel = some (v * 10, false)) ∧
    (∀ v : Int, lookupKey config "LogLevel" = some (JVal.int v) →
      (v < 1 ∨ 5 < v) → setLogLevel config currentLevel = some (currentLevel, true)) ∧
    (lookupKey config "LogLevel" = none →
      setLogLevel config currentLevel = some (30, false)) := by
  refine ⟨?_, ?_, ?_⟩
  · intro v h h1 h5
    unfold setLogLevel
    rw [h]
    simp [h1, h5]
  · intro v h hout
    unfold setLogLevel
    rw [h]
    have hnot : ¬ (1 ≤ v ∧ v ≤ 5) := by omega
    simp [hnot]
  · intro h
    unfold setLogLevel
    rw [h]

/-- Witness for claim C7: levels 2 (applied as 20), 6 and 0 (rejected,
level 30 kept), and absent (defaulted to 30). -/
theorem set_log_level_resolution_witness :
    setLogLevel [("LogLevel", JVal.int 2)] 30 = some (2 * 10, false) ∧
    setLogLevel [("LogLevel", JVal.int 6)] 30 = some (30, true) ∧
    setLogLevel [("LogLevel", JVal.int 0)] 30 = some (30, true) ∧
    setLogLevel [] 30 = some (30, false) :=
  ⟨(set_log_level_resolution [("LogLevel", JVal.int 2)] 30).1 2
      rfl (by norm_num) (by norm_num),
   (set_log_level_resolution [("LogLevel", JVal.int 6)] 30).2.1 6
      rfl (Or.inr (by norm_num)),
   (set_log_level_resolution [("LogLevel", JVal.int 0)] 30).2.1 0
      rfl (Or.inl (by norm_num)),
   (set_log_level_resolution [] 30).2.2 rfl⟩

/-- Claim C6: when the config source string fails to parse as JSON
(`json.loads` raising `ValueError`, modelled as `none`), config
resolution completes normally with an empty configuration object and the
invalid-config warning logged. -/
theorem malformed_config_yields_empty_config
    (jsonLoads : String → Option Cfg) (logLevelArg : Int)
    (frameworkConfig : Option String) (standAlone : Bool)
    (configArg : Option String) (s : String)
    (hsrc : frameworkConfig = some s ∨ (frameworkConfig = none ∧ configArg = some s))
    (hbad : jsonLoads s = none) :
    (parseArgsConfig jsonLoads logLevelArg frameworkConfig standAlone configArg).config = [] ∧
    (parseArgsConfig jsonLoads logLevelArg frameworkConfig standAlone
      configArg).warnedInvalidConfig = true := by
  rcases hsrc with h | ⟨h1, h2⟩
  · subst h
    simp [parseArgsConfig, hbad]
  · subst h1; subst h2
    simp [parseArgsConfig, hbad]

/-- Witness for claim C6: the malformed document `"{bad"` (rejected by
the sample parser) yields the empty config and the warning. -/
theorem malformed_config_yields_empty_config_witness :
    (parseArgsConfig jsonLoadsSample 3 (some "\x7bbad") false none).config = [] ∧
    (parseArgsConfig jsonLoadsSample 3 (some "\x7bbad") false
      none).warnedInvalidConfig = true :=
  malformed_config_yields_empty_config jsonLoadsSample 3 (some "\x7bbad") false
    none "\x7bbad" (Or.inl rfl) rfl

/-- Counterexample for claim C5: with a well-formed framework config
`{"a": 1}` that lacks a `LogLevel` entry, the resolved EffectiveConfig
does not contain a `LogLevel` key — the parsed object replaces the dict
in which `LogLevel` had been stored. -/
theorem effective_config_can_lack_log_level :
    hasKey (parseArgsConfig jsonLoadsSample 3 (some "\x7b\"a\": 1\x7d")
      false none).config "LogLevel" = false := by
  rfl

/-- Claim C5 amended: the EffectiveConfig contains `LogLevel` when no
config source string is supplied; when a source string is supplied, the
parse result replaces the whole mapping (the empty object on parse
failure), so `LogLevel` then survives only if the source JSON itself
contains it. -/
theorem effective_config_log_level_amended
    (jsonLoads : String → Option Cfg) (logLevelArg : Int)
    (frameworkConfig : Option String) (standAlone : Bool)
    (configArg : Option String) :
    (frameworkConfig = none → configArg = none →
      (parseArgsConfig jsonLoads logLevelArg frameworkConfig standAlone
        configArg).config = [("LogLevel", JVal.int logLevelArg)]) ∧
    (∀ s cfg, frameworkConfig = some s → jsonLoads s = some cfg →
      (parseArgsConfig jsonLoads logLevelArg frameworkConfig standAlone
        configArg).config = cfg) ∧
    (∀ s cfg, frameworkConfig = none → configArg = some s →
      jsonLoads s = some cfg →
      (parseArgsConfig jsonLoads logLevelArg frameworkConfig standAlone
        configArg).config = cfg) ∧
    (∀ s, frameworkConfig = some s → jsonLoads s = none →
      (parseArgsConfig jsonLoads logLevelArg frameworkConfig standAlone
        configArg).config = []) := by
  refine ⟨?_, ?_, ?_, ?_⟩
  · intro h1 h2
    subst h1; subst h2
    simp [parseArgsConfig]
  · intro s cfg h1 h2
    subst h1
    simp [parseArgsConfig, h2]
  · intro s cfg h1 h2 h3
    subst h1; subst h2
    simp [parseArgsConfig, h3]
  · intro s h1 h2
    subst h1
    simp [parseArgsConfig, h2]

/-- Witness for claim C5 (amended): no source string keeps
`LogLevel = 3`; the sample source `{"a": 1}` replaces the config with
the parsed object. -/
theorem effective_config_log_level_amended_witness :
    (parseArgsConfig jsonLoadsSample 3 none false none).config =
      [("LogLevel", JVal.int 3)] ∧
    (parseArgsConfig jsonLoadsSample 3 (some "\x7b\"a\": 1\x7d") false
      none).config = [("a", JVal.int 1)] :=
  ⟨(effective_config_log_level_amended jsonLoadsSample 3 none false none).1
      rfl rfl,
   (effective_config_log_level_amended jsonLoadsSample 3
      (some "\x7b\"a\": 1\x7d") false none).2.1 "\x7b\"a\": 1\x7d"
      [("a", JVal.int 1)] rfl rfl⟩

/-- Counterexample for claim C3: the recorded default
`(namespace=["a","b"], key="x", value=7)` is applied to a metric whose
namespace `["a","b","c"]` is longer than the path (matching is not
exact-length); a metric with the shorter all-matching namespace `["a"]`
makes the merge fail with an index error rather than being skipped; a
metric with namespace `["a","c"]` (mismatch within range) is unaffected. -/
theorem default_merge_not_exact_length :
    mergeMetricConfig [] [(["a", "b"], ("x", JVal.int 7))] ["a", "b", "c"] =
      some [("x", JVal.int 7)] ∧
    mergeMetricConfig [] [(["a", "b"], ("x", JVal.int 7))] ["a"] = none ∧
    mergeMetricConfig [] [(["a", "b"], ("x", JVal.int 7))] ["a", "c"] =
      some [] ∧
    (["a", "b"] : List String).length ≠ (["a", "b", "c"] : List String).length :=
  ⟨rfl, rfl, rfl, by decide⟩

/-- The matching loop of the default-merge phase decides whether the
policy path is a segment-by-segment prefix of the metric namespace: it
answers `true` when the path is a prefix, raises `IndexError` (`none`)
when the metric namespace is a proper prefix of the path, and answers
`false` otherwise. -/
theorem matchLoop_eq_prefix_check (ns mns : List String) :
    matchLoop ns mns =
      if ns.isPrefixOf mns then some true
      else if mns.isPrefixOf ns then none
      else some false := by
  induction ns generalizing mns with
  | nil => simp [matchLoop, List.isPrefixOf]
  | cons n ns ih =>
    cases mns with
    | nil => simp [matchLoop, List.isPrefixOf]
    | cons m ms =>
      by_cases h : n = m
      · subst h
        simp [matchLoop, List.isPrefixOf, ih]
      · have h2 : m ≠ n := fun e => h e.symm
        simp [matchLoop, List.isPrefixOf, h, h2]

/-- Claim C3 amended: for every metric and recorded (namespace-path,
key, default) triple, the default is applied to the metric's
configuration if and only if the triple's namespace-path is a
segment-by-segment prefix of the metric's namespace (the metric's
namespace may be longer) and the key is not already present; a mismatch
at any compared position disqualifies that default, and a metric whose
namespace is a proper prefix of the path raises an index error. -/
theorem default_merge_applies_iff_prefix
    (cfg : Cfg) (ns : List String) (key : String) (v : JVal)
    (mns : List String) :
    applyOneDefault cfg (ns, key, v) mns =
      if ns.isPrefixOf mns then
        (if hasKey cfg key then some cfg else some (cfg ++ [(key, v)]))
      else if mns.isPrefixOf ns then none
      else some cfg := by
  unfold applyOneDefault
  rw [matchLoop_eq_prefix_check]
  by_cases h1 : ns.isPrefixOf mns
  · simp only [h1, if_true]
    by_cases h2 : hasKey cfg key <;> simp [h2]
  · simp only [h1, if_false]
    by_cases h2 : mns.isPrefixOf ns <;> simp [h2]

/-- Counterexample for claim C4: for a concrete plugin with
`rpc_type = RPCType.grpc`, the `RPCType` field of the preamble document
is the integer 2 (the `.value` that `_EnumEncoder` emits), not one of
the strings "Native"/"JSON"/"gRPC"/"gRPCStream". -/
theorem preamble_rpc_type_is_integer :
    preambleMetaField sampleMeta 9999 "RPCType" = some (JVal.int 2) ∧
    JVal.int 2 ≠ JVal.str "Native" ∧
    JVal.int 2 ≠ JVal.str "JSON" ∧
    JVal.int 2 ≠ JVal.str "gRPC" ∧
    JVal.int 2 ≠ JVal.str "gRPCStream" := by
  refine ⟨rfl, ?_, ?_, ?_, ?_⟩ <;> intro h <;> cases h

/-- Claim C4 amended: every enumeration field of the preamble document
serializes to its declared integer code (`RPCType` in particular to one
of 0, 1, 2, 3), decoding the document yields identity fields identical
to the `Meta` used to construct it (enumerations under their integer
codes), and `ListenAddress` is `127.0.0.1:` followed by the bound
port. -/
theorem preamble_fields_roundtrip (meta : Meta) (port : Nat) :
    preambleMetaField meta port "Name" = some (JVal.str meta.name) ∧
    preambleMetaField meta port "Version" = some (JVal.int meta.version) ∧
    preambleMetaField meta port "Type" = some (JVal.int meta.type.value) ∧
    preambleMetaField meta port "RPCType" = some (JVal.int meta.rpc_type.value) ∧
    preambleMetaField meta port "RPCVersion" = some (JVal.int meta.rpc_version) ∧
    preambleMetaField meta port "ConcurrencyCount" =
      some (JVal.int meta.concurrency_count) ∧
    preambleMetaField meta port "Exclusive" = some (JVal.bool meta.exclusive) ∧
    preambleMetaField meta port "Unsecure" = some (JVal.bool meta.unsecure) ∧
    preambleMetaField meta port "RoutingStrategy" =
      some (JVal.int meta.routing_strategy.value) ∧
    (meta.rpc_type.value = 0 ∨ meta.rpc_type.value = 1 ∨
      meta.rpc_type.value = 2 ∨ meta.rpc_type.value = 3) ∧
    jLookup (preambleJson meta port) "ListenAddress" =
      some (JVal.str ("127.0.0.1:" ++ natRepr port)) ∧
    jLookup (preambleJson meta port) "State" =
      some (JVal.int PluginResponseState.plugin_success.value) := by
  refine ⟨rfl, rfl, rfl, rfl, rfl, rfl, rfl, rfl, rfl, ?_, rfl, rfl⟩
  cases meta.rpc_type <;> simp [RPCType.value]

/-- Running the monitor over a concatenation of wake-up sequences is the
composition of the runs. -/
theorem monitorRun_append (timeout : Nat) (s : MonitorState)
    (l1 l2 : List MonitorEvent) :
    monitorRun timeout s (l1 ++ l2) =
      monitorRun timeout (monitorRun timeout s l1) l2 := by
  induction l1 generalizing s with
  | nil => rfl
  | cons e es ih => simp [monitorRun, ih]

/-- Once the monitor has returned, no further wake-up changes its state:
there is no restart path. -/
theorem monitorRun_stopped_terminal (timeout : Nat) (s : MonitorState)
    (es : List MonitorEvent) (h : s.stopped = true) :
    monitorRun timeout s es = s := by
  induction es with
  | nil => rfl
  | cons e es ih => simp [monitorRun, monitorStep, h, ih]

/-- Claim C1: for every timeout T ≥ 1, if the watchdog wakes at three
times `u1 < u2 < u3` that are each more than T apart (three consecutive
silent windows), the last ping predates monitoring start (`p ≤ L`) and is
never renewed, and the shutdown flag is never set externally, then the
monitor invokes the stop procedure exactly once and reaches the terminal
stopped state, whatever wake-ups `rest` would follow. -/
theorem watchdog_three_silent_windows_stops_once
    (timeout p L u1 u2 u3 : Nat) (rest : List MonitorEvent)
    (hT : 1 ≤ timeout) (hpL : p ≤ L)
    (h1 : timeout < u1 - L) (h2 : timeout < u2 - u1) (h3 : timeout < u3 - u2) :
    (monitorRun timeout (monitorInit L)
      ([{ now := u1, lastPing := p, shuttingDown := false },
        { now := u2, lastPing := p, shuttingDown := false },
        { now := u3, lastPing := p, shuttingDown := false }] ++ rest)).stopped
      = true ∧
    (monitorRun timeout (monitorInit L)
      ([{ now := u1, lastPing := p, shuttingDown := false },
        { now := u2, lastPing := p, shuttingDown := false },
        { now := u3, lastPing := p, shuttingDown := false }] ++ rest)).stopCalls
      = 1 := by
  have hp1 : timeout < u1 - p := by omega
  have hp2 : timeout < u2 - p := by omega
  have hp3 : timeout < u3 - p := by omega
  have key : monitorRun timeout (monitorInit L)
      [{ now := u1, lastPing := p, shuttingDown := false },
       { now := u2, lastPing := p, shuttingDown := false },
       { now := u3, lastPing := p, shuttingDown := false }] =
      { timeoutCount := 3, lastCheck := u3, stopped := true, stopCalls := 1 } := by
    simp [monitorRun, monitorStep, monitorInit, h1, hp1, h2, hp2, h3, hp3]
  rw [monitorRun_append, key, monitorRun_stopped_terminal timeout _ rest rfl]
  exact ⟨rfl, rfl⟩

/-- Witness for claim C1: timeout 1, last ping at 0; wake-ups at
2, 4 and 6 are three silent windows, so the monitor stops once. -/
theorem watchdog_three_silent_windows_stops_once_witness :
    (monitorRun 1 (monitorInit 0)
      ([{ now := 2, lastPing := 0, shuttingDown := false },
        { now := 4, lastPing := 0, shuttingDown := false },
        { now := 6, lastPing := 0, shuttingDown := false }] ++ [])).stopped
      = true ∧
    (monitorRun 1 (monitorInit 0)
      ([{ now := 2, lastPing := 0, shuttingDown := false },
        { now := 4, lastPing := 0, shuttingDown := false },
        { now := 6, lastPing := 0, shuttingDown := false }] ++ [])).stopCalls
      = 1 :=
  watchdog_three_silent_windows_stops_once 1 0 0 2 4 6 []
    (by decide) (by decide) (by decide) (by decide) (by decide)

/-- Claim C8: in a diagnostic run, if any policy key marked required is
absent from the effective config, the run still returns normally
(`some`, aborting only this run), every such missing key is reported,
and the catalog-update, default-merge and collect phases never
execute. -/
theorem diagnostic_missing_required_aborts
    (config : Cfg) (policies : List (String × List (String × PolicyNode)))
    (updateCatalog : Cfg → List Metric) (collect : List Metric → List Metric)
    (hmiss : (parseAllPolicies config policies).2.1 ≠ []) :
    ∃ tr, printDiagnostic config policies updateCatalog collect = some tr ∧
      (∀ k ∈ (parseAllPolicies config policies).2.1,
        DiagEvent.missingReported k ∈ tr) ∧
      DiagEvent.metricCatalogPrinted ∉ tr ∧
      DiagEvent.collectPrinted ∉ tr := by
  refine ⟨[DiagEvent.runtimeDetails, DiagEvent.configPolicyPrinted] ++
    (parseAllPolicies config policies).2.1.map DiagEvent.missingReported,
    ?_, ?_, ?_, ?_⟩
  · unfold printDiagnostic
    have hlen : (parseAllPolicies config policies).2.1.length ≠ 0 := by
      simpa [List.length_eq_zero] using hmiss
    simp [hlen]
  · intro k hk
    simp only [List.mem_append, List.mem_map]
    exact Or.inr ⟨k, hk, rfl⟩
  · simp
  · simp

/-- Witness for claim C8: the policy requires `threshold` under
namespace `["cpu"]` and the effective config is empty, so the run
reports the missing key and skips the catalog and collect phases. -/
theorem diagnostic_missing_required_aborts_witness :
    ∃ tr, printDiagnostic [] samplePolicies sampleCatalog sampleCollect = some tr ∧
      (∀ k ∈ (parseAllPolicies [] samplePolicies).2.1,
        DiagEvent.missingReported k ∈ tr) ∧
      DiagEvent.metricCatalogPrinted ∉ tr ∧
      DiagEvent.collectPrinted ∉ tr :=
  diagnostic_missing_required_aborts [] samplePolicies sampleCatalog
    sampleCollect (by decide)

/-- Splitting ASCII-ness over string concatenation. -/
theorem isAsciiStr_append (s t : String) :
    isAsciiStr (s ++ t) = (isAsciiStr s && isAsciiStr t) := by
  simp [isAsciiStr, String.data_append, List.all_append]

/-- Decimal digit characters are ASCII. -/
theorem digitChar_ascii (d : Nat) : isAsciiChar (digitChar d) = true := by
  unfold digitChar
  repeat' split
  all_goals decide

/-- Hexadecimal digit characters are ASCII. -/
theorem hexDigitChar_ascii (d : Nat) : isAsciiChar (hexDigitChar d) = true := by
  unfold hexDigitChar
  repeat' split
  all_goals first | decide | exact digitChar_ascii d

/-- Fixed-width hexadecimal rendering is ASCII. -/
theorem hex4_ascii (n : Nat) : isAsciiStr (hex4 n) = true := by
  simp [hex4, isAsciiStr, hexDigitChar_ascii]

/-- Decimal rendering of a natural number is ASCII. -/
theorem natReprCore_ascii (n : Nat) : (natReprCore n).all isAsciiChar = true := by
  induction n using Nat.strong_induction_on with
  | _ n ih =>
    unfold natReprCore
    split
    · simp [digitChar_ascii]
    · rename_i h
      have tail := ih (n / 10) (Nat.div_lt_self (by omega) (by omega))
      simp [List.all_append, digitChar_ascii, tail]

/-- Decimal rendering of a natural number is ASCII. -/
theorem natRepr_ascii (n : Nat) : isAsciiStr (natRepr n) = true :=
  natReprCore_ascii n

/-- Decimal rendering of an integer is ASCII. -/
theorem intRepr_ascii (i : Int) : isAsciiStr (intRepr i) = true := by
  unfold intRepr
  split
  · simp [isAsciiStr_append, natRepr_ascii]
    decide
  · exact natRepr_ascii i.natAbs

/-- The JSON escape of any character (with `ensure_ascii`) is ASCII. -/
theorem escapeChar_ascii (c : Char) : isAsciiStr (escapeChar c) = true := by
  unfold escapeChar
  repeat' split
  · decide
  · decide
  · decide
  · decide
  · decide
  · decide
  · decide
  · rename_i hrange
    have hdata : (String.singleton c).data = [c] := rfl
    simp only [isAsciiStr, hdata, List.all_cons, List.all_nil, Bool.and_true,
      isAsciiChar, decide_eq_true_eq]
    omega
  · simp [isAsciiStr_append, hex4_ascii]
    decide
  · simp [isAsciiStr_append, hex4_ascii]
    decide

/-- The JSON escape of any character sequence is ASCII. -/
theorem escapeChars_ascii (l : List Char) : isAsciiStr (escapeChars l) = true := by
  induction l with
  | nil => decide
  | cons c cs ih => simp [escapeChars, isAsciiStr_append, escapeChar_ascii, ih]

/-- The JSON escape of any string is ASCII. -/
theorem escapeString_ascii (s : String) : isAsciiStr (escapeString s) = true :=
  escapeChars_ascii s.data

mutual

/-- `json.dumps` output is ASCII (the `ensure_ascii` default). -/
theorem jsonDumps_ascii : (v : JVal) → isAsciiStr (jsonDumps v) = true
  | JVal.null => by decide
  | JVal.bool true => by decide
  | JVal.bool false => by decide
  | JVal.int n => by simp [jsonDumps, intRepr_ascii]
  | JVal.str s => by
    simp [jsonDumps, isAsciiStr_append, escapeString_ascii]
    decide
  | JVal.obj fields => by
    simp [jsonDumps, isAsciiStr_append, jsonDumpsFields_ascii fields]
    decide

/-- Serialized JSON object fields are ASCII. -/
theorem jsonDumpsFields_ascii :
    (fs : List (String × JVal)) → isAsciiStr (jsonDumpsFields fs) = true
  | [] => by decide
  | [(k, v)] => by
    simp [jsonDumpsFields, isAsciiStr_append, escapeString_ascii,
      jsonDumps_ascii v]
    decide
  | (k, v) :: f :: fs => by
    simp [jsonDumpsFields, isAsciiStr_append, escapeString_ascii,
      jsonDumps_ascii v, jsonDumpsFields_ascii (f :: fs)]
    decide

end

/-- The serialized preamble (document plus trailing newline) is ASCII. -/
theorem preambleString_ascii (meta : Meta) (port : Nat) :
    isAsciiStr (preambleString meta port) = true := by
  simp [preambleString, isAsciiStr_append, jsonDumps_ascii]
  decide

/-- For an ASCII string, UTF-8 encoding emits one byte per character. -/
theorem utf8Encode_length_of_ascii (s : String) (h : isAsciiStr s = true) :
    (utf8Encode s).length = s.length := by
  have key : ∀ l : List Char, l.all isAsciiChar = true →
      (l.flatMap utf8EncodeChar).length = l.length := by
    intro l hl
    induction l with
    | nil => rfl
    | cons c cs ih =>
      simp only [List.all_cons, Bool.and_eq_true] at hl
      have hc : c.toNat < 128 := by
        simpa [isAsciiChar, decide_eq_true_eq] using hl.1
      simp [utf8EncodeChar, hc, ih hl.2]
  exact key s.data h

/-- Claim C9: for every plugin identity, bound port and request path,
the standalone handler answers with status 200, content type
`application/json; charset=utf-8`, a body that is byte-for-byte the
UTF-8 encoding of the preamble produced at start-up, a `Content-length`
equal to the byte length of that body (the serialized preamble is pure
ASCII, so the character count the handler sends matches the byte count),
the same response on every path, and no request logging. -/
theorem standalone_serves_preamble (meta : Meta) (port : Nat) (path : String) :
    (standaloneGET (preambleString meta port) path).status = 200 ∧
    (standaloneGET (preambleString meta port) path).contentType =
      "application/json; charset=utf-8" ∧
    (standaloneGET (preambleString meta port) path).body =
      utf8Encode (preambleString meta port) ∧
    (standaloneGET (preambleString meta port) path).contentLength =
      (standaloneGET (preambleString meta port) path).body.length ∧
    (∀ otherPath : String,
      standaloneGET (preambleString meta port) otherPath =
        standaloneGET (preambleString meta port) path) ∧
    (∀ fmt : String, ∀ args : List String, standaloneLogMessage fmt args = []) := by
  refine ⟨rfl, rfl, rfl, ?_, fun _ => rfl, fun _ _ => rfl⟩
  exact (utf8Encode_length_of_ascii (preambleString meta port)
    (preambleString_ascii meta port)).symm

end SnapPlugin
